import Mathlib

/-!
Shallow embedding of the overstory agent-coordination core, translated from
`src/commands/stop.ts` (mail heartbeat, pending-nudge markers, auto-nudge rule,
long-poll mail wait) and `src/watchdog/daemon.ts` (watchdog tick, progressive
escalation ladder, run-completion detector).

Timestamps are epoch milliseconds (`Nat`).  External collaborators (tmux
liveness probe, AI triage, nudge delivery, beads lookup) enter as explicit
parameters, mirroring the dependency-injection points of the source
(`_tmux`, `_triage`, `_nudge`, `_getClosedBeadIds`).  Marker files (pending
nudges, the run-complete marker) are modelled as values; fire-and-forget
logging payloads that no claim observes (event `data` JSON, mulch failure
descriptions) are reduced to their discriminating fields.

`evaluateHealth` and `transitionState` live in `src/watchdog/health.ts`, which
is not among the provided sources; those two definitions are modelled from the
specification (§4.5.2) and carry doc comments saying so.  Everything else is
translated from the source files.
-/

namespace Overstory

/-- Lifecycle state of an agent session (spec §3.1, `types.ts`). -/
inductive SessionState where
  | booting
  | working
  | completed
  | stalled
  | zombie
deriving DecidableEq, Repr

/-- The fields of an agent session that the coordination core reads or writes
(`types.ts` `AgentSession`, restricted to the columns the embedded operations
touch).  `lastActivity` and `stalledSince` are epoch milliseconds. -/
structure AgentSession where
  agentName : String
  capability : String
  beadId : String
  tmuxSession : String
  runId : Option String
  state : SessionState
  lastActivity : Nat
  escalationLevel : Nat
  stalledSince : Option Nat
deriving DecidableEq, Repr

/-- A pending-nudge marker file `.overstory/pending-nudges/{agent}.json`
(`stop.ts` `PendingNudge`, minus the `createdAt` timestamp, which no claim
observes). -/
structure PendingNudge where
  fromAgent : String
  reason : String
  subject : String
  messageId : String
deriving DecidableEq, Repr

/-- Verdict of the Tier 1 AI triage collaborator (`daemon.ts` `_triage`). -/
inductive TriageVerdict where
  | retry
  | terminate
  | extend
deriving DecidableEq, Repr

/-- Health action produced by the health evaluation (`health.ts` via spec
§4.5.2). -/
inductive HealthAction where
  | noAction
  | escalate
  | terminate
  | investigate
deriving DecidableEq, Repr

/-- Watchdog thresholds (`daemon.ts` `staleThresholdMs` / `zombieThresholdMs`). -/
structure Thresholds where
  staleMs : Nat
  zombieMs : Nat
deriving DecidableEq, Repr

/-- Structured events the daemon records via `recordEvent` (`daemon.ts`),
reduced to their discriminating `data.type` payloads. -/
inductive DaemonEvent where
  | beadClosedAutocomplete (beadId : String)
  | mailPendingNudge (unreadCount : Nat)
  | escalationWarn
  | nudgeLevel1
  | triage (verdict : TriageVerdict)
  | escalationTerminate
deriving DecidableEq, Repr

/-! Session heartbeat (`stop.ts` `touchAgentSession`). -/

/-- The single-session update performed by `touchAgentSession` (`stop.ts`
lines 263-281): terminal sessions are left untouched; otherwise
`lastActivity` is refreshed and `booting`/`stalled` move to `working`. -/
def touchSession (now : Nat) (s : AgentSession) : AgentSession :=
  if s.state = SessionState.zombie ∨ s.state = SessionState.completed then s
  else
    { s with
      lastActivity := now
      state :=
        if s.state = SessionState.booting ∨ s.state = SessionState.stalled then
          SessionState.working
        else s.state }

/-- `touchAgentSession` over the whole session store: the row whose
`agentName` matches is updated (a missing agent leaves the store unchanged,
as the early `if (!session) return` does). -/
def touchAgentSession (now : Nat) (store : List AgentSession) (agentName : String) :
    List AgentSession :=
  store.map fun s => if s.agentName = agentName then touchSession now s else s

/-! Auto-nudge markers (`stop.ts` `AUTO_NUDGE_TYPES`, `writePendingNudge`,
and the `shouldNudge` test in `handleSend`). -/

/-- Protocol message types that trigger auto-nudge regardless of priority
(`stop.ts` `AUTO_NUDGE_TYPES`). -/
def AUTO_NUDGE_TYPES : List String :=
  ["worker_done", "merge_ready", "error", "escalation", "merge_failed"]

/-- The auto-nudge test from `handleSend`:
`priority === "urgent" || priority === "high" || AUTO_NUDGE_TYPES.has(type)`. -/
def shouldNudge (priority mtype : String) : Bool :=
  priority == "urgent" || priority == "high" || AUTO_NUDGE_TYPES.contains mtype

/-- The nudge `reason` recorded in the marker (`handleSend`):
the type when it is an auto-nudge type, otherwise `"<priority> priority"`. -/
def nudgeReason (priority mtype : String) : String :=
  if AUTO_NUDGE_TYPES.contains mtype then mtype else priority ++ " priority"

/-- The pending-nudge marker directory, one marker file per recipient. -/
def NudgeMarkers : Type := String → Option PendingNudge

/-- `writePendingNudge`: writes `.overstory/pending-nudges/{agent}.json`,
overwriting any existing marker for that agent. -/
def writePendingNudge (m : NudgeMarkers) (agentName : String) (n : PendingNudge) :
    NudgeMarkers :=
  fun a => if a = agentName then some n else m a

/-- The auto-nudge side effect of a successful send to `toAgent` (`handleSend`
lines 675-689; the broadcast path applies the same rule per recipient). -/
def sendAutoNudge (m : NudgeMarkers)
    (fromAgent toAgent subject messageId priority mtype : String) : NudgeMarkers :=
  if shouldNudge priority mtype then
    writePendingNudge m toAgent
      { fromAgent := fromAgent
        reason := nudgeReason priority mtype
        subject := subject
        messageId := messageId }
  else m

/-- The wake-on-nudge test of `handleWait` (`stop.ts` lines 955-957):
`capability === "coordinator" || capability === "lead" || agent === "coordinator"`.
`capability` is the result of `resolveAgentCapability` (`none` when the agent
has no session row). -/
def wakeOnPendingNudge (capability : Option String) (agent : String) : Bool :=
  capability == some "coordinator" || capability == some "lead" ||
    agent == "coordinator"

/-! Long-poll mail wait (`stop.ts` `waitForMail`). -/

/-- Result status of `waitForMail`. -/
inductive WaitStatus where
  | message
  | timeout
  | cancelled
  | nudged
deriving DecidableEq, Repr

/-- Outcome of one iteration of the `waitForMail` loop: either a final result
or a sleep followed by the next iteration with an updated poll interval. -/
inductive WaitStepResult where
  | done (status : WaitStatus) (messages : List String) (nudge : Option PendingNudge)
  | sleepThen (sleepMs : Nat) (nextPollMs : Nat)
deriving DecidableEq, Repr

/-- One iteration of the `waitForMail` loop (`stop.ts` lines 838-901),
translated from the source.  `cancelFile` is `none` when no cancel file was
configured, `some b` when it is configured and `b` records whether the file
exists this iteration.  `marker` is the recipient's pending-nudge marker
(read and cleared only when `wake` is set), `inbox` the ids of the unread
messages returned by `client.check`, `elapsedMs` the time since the wait
started, `pollMs` the current poll interval. -/
def waitForMailStep (timeoutMs initialPollMs maxPollMs : Nat) (backoff : ℚ)
    (wake : Bool) (cancelFile : Option Bool) (marker : Option PendingNudge)
    (inbox : List String) (elapsedMs pollMs : Nat) : WaitStepResult :=
  let cancelHit :=
    match cancelFile with
    | some ex => ex
    | none => false
  if cancelHit then WaitStepResult.done WaitStatus.cancelled [] none
  else
    let pendingNudge := if wake then marker else none
    if inbox.length > 0 then WaitStepResult.done WaitStatus.message inbox pendingNudge
    else if pendingNudge ≠ none then WaitStepResult.done WaitStatus.nudged [] pendingNudge
    else if elapsedMs ≥ timeoutMs then WaitStepResult.done WaitStatus.timeout [] none
    else
      WaitStepResult.sleepThen (min pollMs (timeoutMs - elapsedMs))
        (min maxPollMs (max initialPollMs (Nat.floor ((pollMs : ℚ) * backoff))))

/-- The wait iteration as the specification words it (§4.4 steps (a)-(h)).
Spec-side definition for the refinement claim: (a) an existing cancel file
returns `cancelled`; (b) the nudge is read only when waking on nudges;
(e) a non-empty inbox returns `message` with the nudge read this iteration;
(f) a nudge with empty inbox returns `nudged`; (g) elapsed time at or past
the timeout returns `timeout`; (h) otherwise sleep `min(pollMs, remainingMs)`
and set `pollMs := min(maxPollMs, max(initialPollMs, floor(pollMs * backoff)))`. -/
def waitStepSpec (timeoutMs initialPollMs maxPollMs : Nat) (backoff : ℚ)
    (wake : Bool) (cancelFile : Option Bool) (marker : Option PendingNudge)
    (inbox : List String) (elapsedMs pollMs : Nat) : WaitStepResult :=
  if cancelFile = some true then WaitStepResult.done WaitStatus.cancelled [] none
  else
    let nudge := if wake then marker else none
    if inbox ≠ [] then WaitStepResult.done WaitStatus.message inbox nudge
    else if nudge.isSome then WaitStepResult.done WaitStatus.nudged [] nudge
    else if timeoutMs ≤ elapsedMs then WaitStepResult.done WaitStatus.timeout [] none
    else
      WaitStepResult.sleepThen (min pollMs (timeoutMs - elapsedMs))
        (min maxPollMs (max initialPollMs (Nat.floor ((pollMs : ℚ) * backoff))))

/-! Watchdog health evaluation.  `evaluateHealth` and `transitionState` are
imported by `daemon.ts` from `src/watchdog/health.ts`, which is not among the
provided sources; both are modelled from the specification. -/

/-- Modelled from the spec: `evaluateHealth` (in the missing
`src/watchdog/health.ts`) per the decision table of §4.5.2 with
`age = now - lastActivity`:
a dead terminal yields `(terminate, zombie)`; a live terminal with recorded
state `zombie` yields `(investigate, unchanged)`; otherwise age below
`staleMs` yields `(noAction, working)`, age in the stale band yields
`(escalate, stalled)`, and age at or past `zombieMs` yields
`(escalate, unchanged)`.  The `reconciliationNote` string is elided (no claim
observes it). -/
def evaluateHealth (now : Nat) (s : AgentSession) (tmuxAlive : Bool)
    (th : Thresholds) : HealthAction × SessionState :=
  if tmuxAlive = false then (HealthAction.terminate, SessionState.zombie)
  else if s.state = SessionState.zombie then (HealthAction.investigate, s.state)
  else
    let age := now - s.lastActivity
    if age < th.staleMs then (HealthAction.noAction, SessionState.working)
    else if age < th.zombieMs then (HealthAction.escalate, SessionState.stalled)
    else (HealthAction.escalate, s.state)

/-- Modelled from the spec: `transitionState` (in the missing
`src/watchdog/health.ts`): "Apply state transition (monotonic forward except
that `investigate` holds current state)" (§4.5.1d), and terminal states never
transition out (§3.1 invariant (b)). -/
def transitionState (st : SessionState) (action : HealthAction)
    (newState : SessionState) : SessionState :=
  if action = HealthAction.investigate then st
  else if st = SessionState.completed ∨ st = SessionState.zombie then st
  else newState

/-! Progressive escalation (`daemon.ts` `executeEscalationAction` and the
`escalate` branch of `runDaemonTick`). -/

/-- The level-1 stall nudge message (`daemon.ts` line 701). -/
def stallNudgeMessage (name : String) : String :=
  "[WATCHDOG] Agent \"" ++ name ++
    "\" appears stalled. Please check your current task and report status."

/-- The triage `retry` recovery nudge message (`daemon.ts` lines 759-760). -/
def retryNudgeMessage : String :=
  "[WATCHDOG] Triage suggests recovery is possible. " ++
    "Please retry your current operation or check for errors."

/-- The first-stall unread-mail courtesy nudge message (`daemon.ts` line 534). -/
def inboxNudgeMessage (name : String) (unread : Nat) : String :=
  "[WATCHDOG] You have " ++ toString unread ++ " unread mail message" ++
    (if unread = 1 then "" else "s") ++ ". Run: overstory mail check --agent " ++ name

/-- Observable effects of `executeEscalationAction`: whether the agent was
terminated, the events recorded, the nudges sent (recipient, message), the
mulch failure records (by tier), and whether the tmux session was killed. -/
structure EscalationOutcome where
  terminated : Bool
  events : List DaemonEvent
  nudges : List (String × String)
  failures : List Nat
  killed : Bool
deriving DecidableEq, Repr

/-- `executeEscalationAction` (`daemon.ts` lines 638-795): dispatch on the
session's current escalation level.  Level 0 warns; level 1 sends the stall
nudge; level 2 invokes triage when Tier 1 is enabled (terminate kills and
records a tier-1 failure, retry sends a recovery nudge, extend is a no-op)
and is skipped otherwise; level 3 and above records a tier-0 failure, kills
the live terminal and terminates. -/
def executeEscalationAction (level : Nat) (tier1Enabled tmuxAlive : Bool)
    (verdict : TriageVerdict) (agentName : String) : EscalationOutcome :=
  if level = 0 then
    { terminated := false
      events := [DaemonEvent.escalationWarn]
      nudges := []
      failures := []
      killed := false }
  else if level = 1 then
    { terminated := false
      events := [DaemonEvent.nudgeLevel1]
      nudges := [(agentName, stallNudgeMessage agentName)]
      failures := []
      killed := false }
  else if level = 2 then
    if tier1Enabled = false then
      { terminated := false, events := [], nudges := [], failures := [], killed := false }
    else
      match verdict with
      | TriageVerdict.terminate =>
        { terminated := true
          events := [DaemonEvent.triage TriageVerdict.terminate]
          nudges := []
          failures := [1]
          killed := tmuxAlive }
      | TriageVerdict.retry =>
        { terminated := false
          events := [DaemonEvent.triage TriageVerdict.retry]
          nudges := [(agentName, retryNudgeMessage)]
          failures := []
          killed := false }
      | TriageVerdict.extend =>
        { terminated := false
          events := [DaemonEvent.triage TriageVerdict.extend]
          nudges := []
          failures := []
          killed := false }
  else
    { terminated := true
      events := [DaemonEvent.escalationTerminate]
      nudges := []
      failures := [0]
      killed := tmuxAlive }

/-- Per-tick environment: the tick timestamp, thresholds, interval and Tier 1
flag from `DaemonOptions`, the batched closed-bead set, the triage verdict
the collaborator would return this tick, and the agent's unread-mail count
(`mailStore.getUnread(...).length`). -/
structure TickEnv where
  now : Nat
  thresholds : Thresholds
  nudgeIntervalMs : Nat
  tier1Enabled : Bool
  closedBeadIds : List String
  verdict : TriageVerdict
  unreadCount : Nat
deriving Repr

/-- Observable outcome of processing one session in a tick: the session row
as persisted at the end of the tick, the events recorded, whether the tmux
liveness probe ran, the nudges sent, the failure records (by tier), whether
the terminal was killed, and whether the session was terminated this tick. -/
structure SessionTickResult where
  session : AgentSession
  events : List DaemonEvent
  probed : Bool
  nudges : List (String × String)
  failures : List Nat
  killed : Bool
  terminated : Bool
deriving DecidableEq, Repr

/-- The `escalate` branch of `runDaemonTick` (`daemon.ts` lines 512-593):
initialize `stalledSince`/level 0 on first detection (with the first-stall
unread-mail courtesy nudge), advance the level to
`min(floor((now - stalledSince) / nudgeIntervalMs), MAX_ESCALATION_LEVEL)`
when that exceeds the stored level, execute the action for the current level,
and on termination move to `zombie` and reset the escalation tracking. -/
def escalateBranch (env : TickEnv) (tmuxAlive : Bool) (s : AgentSession) :
    SessionTickResult :=
  let firstStallTick := s.stalledSince = none
  let since := s.stalledSince.getD env.now
  let level0 := if firstStallTick then 0 else s.escalationLevel
  let courtesyNudges :=
    if firstStallTick ∧ 0 < env.unreadCount then
      [(s.agentName, inboxNudgeMessage s.agentName env.unreadCount)]
    else []
  let courtesyEvents :=
    if firstStallTick ∧ 0 < env.unreadCount then
      [DaemonEvent.mailPendingNudge env.unreadCount]
    else []
  let stalledMs := env.now - since
  let expected := min (stalledMs / env.nudgeIntervalMs) 3
  let level := if level0 < expected then expected else level0
  let outcome := executeEscalationAction level env.tier1Enabled tmuxAlive env.verdict
    s.agentName
  let sess :=
    if outcome.terminated then
      { s with
        state := SessionState.zombie
        escalationLevel := 0
        stalledSince := none }
    else
      { s with
        escalationLevel := level
        stalledSince := some since }
  { session := sess
    events := courtesyEvents ++ outcome.events
    probed := true
    nudges := courtesyNudges ++ outcome.nudges
    failures := outcome.failures
    killed := outcome.killed
    terminated := outcome.terminated }

/-- One session's processing inside a tick (`runDaemonTick`, `daemon.ts`
lines 444-594): skip `completed` sessions; force-complete a session whose
bead is in the closed set (emitting `bead_closed_autocomplete`, without
probing the terminal); otherwise probe liveness (`tmuxAlive` is the probe
result), evaluate health, apply the forward state transition, and dispatch
on the action: `terminate` records a tier-0 failure, kills a live terminal
and resets to `zombie`; `investigate` surfaces without state change;
`escalate` runs the progressive ladder; `noAction` with a non-null
`stalledSince` resets the escalation tracking (recovery). -/
def sessionTick (env : TickEnv) (tmuxAlive : Bool) (s : AgentSession) :
    SessionTickResult :=
  if s.state = SessionState.completed then
    { session := s
      events := []
      probed := false
      nudges := []
      failures := []
      killed := false
      terminated := false }
  else if s.beadId ≠ "" ∧ s.beadId ∈ env.closedBeadIds then
    { session :=
        { s with
          state := SessionState.completed
          escalationLevel := 0
          stalledSince := none }
      events := [DaemonEvent.beadClosedAutocomplete s.beadId]
      probed := false
      nudges := []
      failures := []
      killed := false
      terminated := false }
  else
    let hc := evaluateHealth env.now s tmuxAlive env.thresholds
    let st1 := transitionState s.state hc.1 hc.2
    let s1 := { s with state := st1 }
    if hc.1 = HealthAction.terminate then
      { session :=
          { s1 with
            state := SessionState.zombie
            escalationLevel := 0
            stalledSince := none }
        events := []
        probed := true
        nudges := []
        failures := [0]
        killed := tmuxAlive
        terminated := true }
    else if hc.1 = HealthAction.investigate then
      { session := s1
        events := []
        probed := true
        nudges := []
        failures := []
        killed := false
        terminated := false }
    else if hc.1 = HealthAction.escalate then
      escalateBranch env tmuxAlive s1
    else if s.stalledSince ≠ none then
      { session := { s1 with escalationLevel := 0, stalledSince := none }
        events := []
        probed := true
        nudges := []
        failures := []
        killed := false
        terminated := false }
    else
      { session := s1
        events := []
        probed := true
        nudges := []
        failures := []
        killed := false
        terminated := false }

/-- One session's processing with a fallible liveness probe.  The probe
(`await tmux.isSessionAlive(session.tmuxSession)`) is the first fallible
operation on the non-skipped path; a rejection propagates out of the loop
body uncaught.  The `completed`-skip and closed-bead branches return before
any probe. -/
def sessionTickE (env : TickEnv) (probe : Except String Bool) (s : AgentSession) :
    Except String SessionTickResult :=
  if s.state = SessionState.completed ∨ (s.beadId ≠ "" ∧ s.beadId ∈ env.closedBeadIds) then
    Except.ok (sessionTick env false s)
  else
    match probe with
    | Except.ok alive => Except.ok (sessionTick env alive s)
    | Except.error e => Except.error e

/-- The per-session loop of `runDaemonTick` (`daemon.ts` lines 444-594).
There is no per-session catch: an error thrown while evaluating one session
aborts the loop, leaving that session and every later one with their prior
stored rows, and propagates (the `finally` block only closes the stores).
Returns the stored session rows after the tick and the escaped error, if
any. -/
def tickLoop (env : TickEnv) (probe : String → Except String Bool) :
    List AgentSession → List AgentSession × Option String
  | [] => ([], none)
  | s :: rest =>
    match sessionTickE env (probe s.tmuxSession) s with
    | Except.ok r =>
      let tail := tickLoop env probe rest
      (r.session :: tail.1, tail.2)
    | Except.error e => (s :: rest, some e)

/-- One scheduled daemon tick as `startDaemon` runs it (`daemon.ts` lines
358-377): `runDaemonTick(options).catch(...)` — store mutations made before
an error persist, the error itself is swallowed, and the interval schedules
the next tick regardless. -/
def daemonStep (env : TickEnv) (probe : String → Except String Bool)
    (store : List AgentSession) : List AgentSession :=
  (tickLoop env probe store).1

/-! Run-completion detector (`daemon.ts` `checkRunCompletion` and
`buildCompletionMessage`). -/

/-- Persistent capabilities excluded from run-level completion accounting
(`daemon.ts` `PERSISTENT_CAPABILITIES`). -/
def PERSISTENT_CAPABILITIES : List String := ["coordinator", "monitor"]

/-- Insert a string into a sorted list (ascending). -/
def insertSorted (x : String) : List String → List String
  | [] => [x]
  | y :: ys => if x ≤ y then x :: y :: ys else y :: insertSorted x ys

/-- Sort strings ascending (the `Array.from(capabilities).sort()` of
`buildCompletionMessage`; capability names are ASCII, so code-unit order and
this order agree). -/
def sortStrings (l : List String) : List String := l.foldr insertSorted []

/-- `buildCompletionMessage` (`daemon.ts` lines 184-211): single-capability
batches get a targeted message, mixed batches a generic summary with a
sorted capability breakdown. -/
def buildCompletionMessage (workerSessions : List AgentSession) (runId : String) :
    String :=
  let capabilities := (workerSessions.map (·.capability)).dedup
  let count := toString workerSessions.length
  if capabilities.length = 1 ∧ capabilities.contains "scout" then
    "[WATCHDOG] All " ++ count ++ " scout(s) in run " ++ runId ++
      " have completed. Ready for next phase."
  else if capabilities.length = 1 ∧ capabilities.contains "builder" then
    "[WATCHDOG] All " ++ count ++ " builder(s) in run " ++ runId ++
      " have completed. Ready for merge/cleanup."
  else if capabilities.length = 1 ∧ capabilities.contains "reviewer" then
    "[WATCHDOG] All " ++ count ++ " reviewer(s) in run " ++ runId ++
      " have completed. Reviews done."
  else if capabilities.length = 1 ∧ capabilities.contains "lead" then
    "[WATCHDOG] All " ++ count ++ " lead(s) in run " ++ runId ++
      " have completed. Ready for merge/cleanup."
  else if capabilities.length = 1 ∧ capabilities.contains "merger" then
    "[WATCHDOG] All " ++ count ++ " merger(s) in run " ++ runId ++
      " have completed. Merges done."
  else
    let breakdown := String.intercalate ", " (sortStrings capabilities)
    "[WATCHDOG] All " ++ count ++ " worker(s) in run " ++ runId ++
      " have completed (" ++ breakdown ++ "). Ready for next steps."

/-- The non-persistent workers of a run: `store.getByRun(runId)` (modelled
from spec §4.1 as the rows tagged with that run) minus
`PERSISTENT_CAPABILITIES`. -/
def workersOf (sessions : List AgentSession) (runId : String) : List AgentSession :=
  (sessions.filter fun s => s.runId == some runId).filter
    fun s => !PERSISTENT_CAPABILITIES.contains s.capability

/-- Completion-detector state across ticks: the `run-complete-notified.txt`
marker, the force-sent notifications (recipient, message), and the recorded
`run_complete` events (by run id). -/
structure CompletionState where
  marker : Option String
  notices : List (String × String)
  events : List String
deriving DecidableEq, Repr

/-- `checkRunCompletion` (`daemon.ts` lines 220-292): skip when the run has
no non-persistent workers, when any worker is not `completed`, or when the
dedup marker already holds this run id; otherwise force-nudge the
coordinator with the phase-aware message, record a `run_complete` event and
write the marker. -/
def checkRunCompletion (sessions : List AgentSession) (runId : String)
    (st : CompletionState) : CompletionState :=
  let workerSessions := workersOf sessions runId
  if workerSessions.isEmpty then st
  else if !workerSessions.all (fun s => s.state == SessionState.completed) then st
  else if st.marker = some runId then st
  else
    { marker := some runId
      notices := st.notices ++
        [("coordinator", buildCompletionMessage workerSessions runId)]
      events := st.events ++ [runId] }

/-- The terminal-reset invariant (spec §3.1 invariant (c) and §8): a session
in a terminal state carries no escalation tracking. -/
def sessionInvariant (s : AgentSession) : Prop :=
  (s.state = SessionState.completed ∨ s.state = SessionState.zombie) →
    s.escalationLevel = 0 ∧ s.stalledSince = none

/-! Concrete inputs used by witnesses and counterexamples. -/

/-- Default thresholds for the concrete scenarios (5 min stale, 20 min
zombie, matching spec §8 scenario 2). -/
def demoThresholds : Thresholds := { staleMs := 300000, zombieMs := 1200000 }

/-- A concrete tick environment: Tier 1 disabled, bead `bead-1` closed, no
unread mail. -/
def demoEnv : TickEnv :=
  { now := 1000000
    thresholds := demoThresholds
    nudgeIntervalMs := 60000
    tier1Enabled := false
    closedBeadIds := ["bead-1"]
    verdict := TriageVerdict.extend
    unreadCount := 0 }

/-- A working session whose liveness probe will fail. -/
def probeFailureSessionA : AgentSession :=
  { agentName := "alpha"
    capability := "builder"
    beadId := ""
    tmuxSession := "tmux-alpha"
    runId := none
    state := SessionState.working
    lastActivity := 900000
    escalationLevel := 0
    stalledSince := none }

/-- A working session whose bead is closed (it would be auto-completed by a
clean tick). -/
def probeFailureSessionB : AgentSession :=
  { agentName := "beta"
    capability := "builder"
    beadId := "bead-1"
    tmuxSession := "tmux-beta"
    runId := none
    state := SessionState.working
    lastActivity := 900000
    escalationLevel := 0
    stalledSince := none }

/-- A probe that rejects for `tmux-alpha` and answers alive for everyone
else. -/
def failingProbe : String → Except String Bool :=
  fun t => if t = "tmux-alpha" then Except.error "tmux probe failed" else Except.ok true

/-- A zombie session used to exercise the heartbeat's terminal-state skip. -/
def zombieMailSession : AgentSession :=
  { agentName := "zed"
    capability := "builder"
    beadId := ""
    tmuxSession := "tmux-zed"
    runId := none
    state := SessionState.zombie
    lastActivity := 12345
    escalationLevel := 0
    stalledSince := none }

/-- A stalled session two nudge intervals into its stall. -/
def stalledMailSession : AgentSession :=
  { agentName := "stall"
    capability := "builder"
    beadId := ""
    tmuxSession := "tmux-stall"
    runId := none
    state := SessionState.stalled
    lastActivity := 0
    escalationLevel := 0
    stalledSince := some 880000 }

/-- A session on its very first stall detection. -/
def freshStallSession : AgentSession :=
  { agentName := "fresh"
    capability := "builder"
    beadId := ""
    tmuxSession := "tmux-fresh"
    runId := none
    state := SessionState.stalled
    lastActivity := 0
    escalationLevel := 0
    stalledSince := none }

/-- A non-completed session whose bead is closed, with stale escalation
tracking that the autocomplete must reset. -/
def beadClosedSession : AgentSession :=
  { agentName := "bee"
    capability := "builder"
    beadId := "bead-1"
    tmuxSession := "tmux-bee"
    runId := none
    state := SessionState.working
    lastActivity := 0
    escalationLevel := 2
    stalledSince := some 5 }

/-- A zombie session satisfying the terminal-reset invariant. -/
def invariantDemoSession : AgentSession :=
  { agentName := "inv"
    capability := "builder"
    beadId := ""
    tmuxSession := "tmux-inv"
    runId := none
    state := SessionState.zombie
    lastActivity := 0
    escalationLevel := 0
    stalledSince := none }

/-- A completed worker of run `run-1`. -/
def runWorkerSession : AgentSession :=
  { agentName := "w1"
    capability := "builder"
    beadId := ""
    tmuxSession := "tmux-w1"
    runId := some "run-1"
    state := SessionState.completed
    lastActivity := 0
    escalationLevel := 0
    stalledSince := none }

/-- The completion-detector state before any notification. -/
def runInitialState : CompletionState := { marker := none, notices := [], events := [] }

/-- The tick environment for the skipped-ladder scenario, at the moment of
first stall detection. -/
def skipEnv0 : TickEnv := { demoEnv with now := 0 }

/-- The tick environment for the skipped-ladder scenario, 200 s later (more
than three nudge intervals). -/
def skipEnv1 : TickEnv := { demoEnv with now := 200000 }

/-- An empty pending-nudge marker directory. -/
def emptyMarkers : NudgeMarkers := fun _ => none

/-! Theorems.  Helper lemmas come first, then one theorem per claim (with
counterexamples and witnesses where required). -/

/-- C7: a successful mail send writes a pending-nudge marker for the
recipient if and only if the priority is high or urgent or the type is in
the auto-nudge set; the write replaces any existing marker for that
recipient and leaves every other recipient's marker untouched. -/
theorem auto_nudge_marker (m : NudgeMarkers)
    (fromAgent toAgent subject messageId priority mtype : String) :
    (sendAutoNudge m fromAgent toAgent subject messageId priority mtype toAgent =
      if shouldNudge priority mtype then
        some
          { fromAgent := fromAgent
            reason := nudgeReason priority mtype
            subject := subject
            messageId := messageId }
      else m toAgent) ∧
    (shouldNudge priority mtype = true ↔
      priority = "high" ∨ priority = "urgent" ∨ mtype ∈ AUTO_NUDGE_TYPES) ∧
    (∀ a : String, a ≠ toAgent →
      sendAutoNudge m fromAgent toAgent subject messageId priority mtype a = m a) := by
  refine ⟨?_, ?_, ?_⟩
  · by_cases hn : shouldNudge priority mtype = true
    · simp [sendAutoNudge, writePendingNudge, hn]
    · simp only [Bool.not_eq_true] at hn
      simp [sendAutoNudge, hn]
  · constructor
    · intro hn
      simp only [shouldNudge, Bool.or_eq_true, beq_iff_eq] at hn
      rcases hn with (hn | hn) | hn
      · exact Or.inr (Or.inl hn)
      · exact Or.inl hn
      · exact Or.inr (Or.inr (by simpa using hn))
    · intro hn
      simp only [shouldNudge, Bool.or_eq_true, beq_iff_eq]
      rcases hn with hn | hn | hn
      · exact Or.inl (Or.inr hn)
      · exact Or.inl (Or.inl hn)
      · exact Or.inr (by simpa using hn)
  · intro a ha
    by_cases hn : shouldNudge priority mtype = true
    · simp [sendAutoNudge, writePendingNudge, hn, ha]
    · simp only [Bool.not_eq_true] at hn
      simp [sendAutoNudge, hn]

/-- C7 witness: a high-priority status send to `builder-2` writes the marker
with reason `high priority`. -/
theorem auto_nudge_marker_witness :
    (sendAutoNudge emptyMarkers "lead-1" "builder-2" "subj" "m-1" "high" "status"
        "builder-2" =
      if shouldNudge "high" "status" then
        some
          { fromAgent := "lead-1"
            reason := nudgeReason "high" "status"
            subject := "subj"
            messageId := "m-1" }
      else emptyMarkers "builder-2") ∧
    (shouldNudge "high" "status" = true ↔
      "high" = "high" ∨ "high" = "urgent" ∨ "status" ∈ AUTO_NUDGE_TYPES) :=
  ⟨(auto_nudge_marker emptyMarkers "lead-1" "builder-2" "subj" "m-1" "high" "status").1,
    (auto_nudge_marker emptyMarkers "lead-1" "builder-2" "subj" "m-1" "high" "status").2.1⟩

/-- C9 counterexample: an agent named `coordinator` whose recorded capability
is `builder` — neither coordinator nor lead — still enters the wait with
`wakeOnPendingNudge = true`, refuting the claimed "exactly when". -/
theorem wake_on_nudge_counterexample :
    wakeOnPendingNudge (some "builder") "coordinator" = true ∧
    (some "builder" : Option String) ≠ some "coordinator" ∧
    (some "builder" : Option String) ≠ some "lead" := by decide

/-- C9 (amended): `wakeOnPendingNudge` is true exactly when the recorded
capability is coordinator or lead, or the waiting agent's name is
`coordinator`. -/
theorem wake_on_nudge_iff (capability : Option String) (agent : String) :
    wakeOnPendingNudge capability agent = true ↔
      capability = some "coordinator" ∨ capability = some "lead" ∨
        agent = "coordinator" := by
  simp [wakeOnPendingNudge, Bool.or_eq_true, beq_iff_eq, or_assoc]

/-- C8 counterexample: a zombie agent performing a mail operation does not
get its `lastActivity` updated — `touchAgentSession` leaves terminal rows
untouched, refuting the claim's unconditional update. -/
theorem touch_zombie_counterexample :
    touchAgentSession 99999 [zombieMailSession] "zed" = [zombieMailSession] ∧
    zombieMailSession.lastActivity ≠ 99999 := by decide

/-- C8 (amended): a send, check or reply by agent `A` updates `A`'s
`lastActivity` and moves a `booting`/`stalled` state to `working`, provided
`A` has a session row in a non-terminal state; zombie and completed rows are
left untouched. -/
theorem touch_session_heartbeat (now : Nat) (store : List AgentSession)
    (name : String) (s : AgentSession) (hmem : s ∈ store)
    (hname : s.agentName = name)
    (hz : s.state ≠ SessionState.zombie) (hc : s.state ≠ SessionState.completed) :
    (touchSession now s).lastActivity = now ∧
    ((s.state = SessionState.booting ∨ s.state = SessionState.stalled) →
      (touchSession now s).state = SessionState.working) ∧
    touchSession now s ∈ touchAgentSession now store name ∧
    ∀ z : AgentSession,
      (z.state = SessionState.zombie ∨ z.state = SessionState.completed) →
        touchSession now z = z := by
  refine ⟨?_, ?_, ?_, ?_⟩
  · simp [touchSession, hz, hc]
  · intro hbs
    simp [touchSession, hz, hc, hbs]
  · exact List.mem_map.mpr ⟨s, hmem, by simp [hname]⟩
  · intro z hzc
    simp [touchSession, hzc]

/-- C8 witness: a stalled agent's mail operation refreshes `lastActivity`,
moves it to `working`, and the updated row is in the store. -/
theorem touch_session_heartbeat_witness :
    (touchSession 999999 stalledMailSession).lastActivity = 999999 ∧
    ((stalledMailSession.state = SessionState.booting ∨
        stalledMailSession.state = SessionState.stalled) →
      (touchSession 999999 stalledMailSession).state = SessionState.working) ∧
    touchSession 999999 stalledMailSession ∈
      touchAgentSession 999999 [stalledMailSession] "stall" := by
  have h := touch_session_heartbeat 999999 [stalledMailSession] "stall"
    stalledMailSession (by simp) rfl (by decide) (by decide)
  exact ⟨h.1, h.2.1, h.2.2.1⟩

/-- C6: every iteration of the long-poll mail wait follows the
specification's step order (a)-(h): the iteration translated from
`waitForMail` agrees with the spec-side `waitStepSpec` on all inputs. -/
theorem wait_step_refines_spec (timeoutMs initialPollMs maxPollMs : Nat)
    (backoff : ℚ) (hb : 1 ≤ backoff) (wake : Bool) (cancelFile : Option Bool)
    (marker : Option PendingNudge) (inbox : List String) (elapsedMs pollMs : Nat) :
    waitForMailStep timeoutMs initialPollMs maxPollMs backoff wake cancelFile
        marker inbox elapsedMs pollMs =
      waitStepSpec timeoutMs initialPollMs maxPollMs backoff wake cancelFile
        marker inbox elapsedMs pollMs := by
  unfold waitForMailStep waitStepSpec
  rcases cancelFile with _ | ex
  · simp only [Option.some.injEq, reduceCtorEq, if_false]
    by_cases hm : inbox = []
    · subst hm
      simp [Option.isSome_iff_ne_none]
    · have hlen : 0 < inbox.length := List.length_pos.mpr hm
      simp [hm, hlen]
  · cases ex
    · simp only [Option.some.injEq, Bool.false_eq_true, if_false]
      by_cases hm : inbox = []
      · subst hm
        simp [Option.isSome_iff_ne_none]
      · have hlen : 0 < inbox.length := List.length_pos.mpr hm
        simp [hm, hlen]
    · simp

/-- C6 witness: a configured, existing cancel file at a concrete input. -/
theorem wait_step_refines_spec_witness :
    (1 : ℚ) ≤ 2 ∧
    waitForMailStep 10000 1000 10000 2 true (some true) none [] 0 1000 =
      waitStepSpec 10000 1000 10000 2 true (some true) none [] 0 1000 :=
  ⟨by decide,
    wait_step_refines_spec 10000 1000 10000 2 (by decide) true (some true)
      none [] 0 1000⟩

/-- Helper: first-detection shape of the `escalate` branch (no unread mail):
`stalledSince` is initialized to the tick time, the level is 0, and only the
level-0 warn runs. -/
theorem escalateBranch_first (env : TickEnv) (alive : Bool) (s : AgentSession)
    (h0 : s.stalledSince = none) (hu : env.unreadCount = 0) :
    escalateBranch env alive s =
      { session := { s with escalationLevel := 0, stalledSince := some env.now }
        events := [DaemonEvent.escalationWarn]
        probed := true
        nudges := []
        failures := []
        killed := false
        terminated := false } := by
  simp [escalateBranch, h0, hu, executeEscalationAction, Nat.sub_self, Nat.zero_div]

/-- Helper: subsequent-tick shape of the `escalate` branch: with
`stalledSince = some t` the courtesy nudge is skipped, the level advances to
`min((now - t) / nudgeIntervalMs, 3)` when that exceeds the stored level, and
the ladder action for the resulting level runs. -/
theorem escalateBranch_subsequent (env : TickEnv) (alive : Bool)
    (s : AgentSession) (t : Nat) (ht : s.stalledSince = some t) :
    escalateBranch env alive s =
      (let e := min ((env.now - t) / env.nudgeIntervalMs) 3
       let lvl := if s.escalationLevel < e then e else s.escalationLevel
       let outcome := executeEscalationAction lvl env.tier1Enabled alive env.verdict
         s.agentName
       { session :=
           if outcome.terminated then
             { s with
               state := SessionState.zombie
               escalationLevel := 0
               stalledSince := none }
           else
             { s with escalationLevel := lvl, stalledSince := some t }
         events := outcome.events
         probed := true
         nudges := outcome.nudges
         failures := outcome.failures
         killed := outcome.killed
         terminated := outcome.terminated }) := by
  simp [escalateBranch, ht]

/-- C2: in the `escalate` branch, the first tick that detects the stall sets
`stalledSince := now` and `escalationLevel := 0`; on a subsequent tick the
persisted level becomes `min((now - stalledSince) / nudgeIntervalMs, 3)`
whenever that exceeds the stored level, and it never decreases while the
ladder has not terminated the session. -/
theorem escalation_level_monotone (env : TickEnv) (alive : Bool)
    (s : AgentSession) (hI : 0 < env.nudgeIntervalMs) :
    (s.stalledSince = none →
      (escalateBranch env alive s).session.escalationLevel = 0 ∧
      (escalateBranch env alive s).session.stalledSince = some env.now ∧
      (escalateBranch env alive s).terminated = false) ∧
    (∀ t : Nat, s.stalledSince = some t → t ≤ env.now →
      (escalateBranch env alive s).terminated = false →
      (s.escalationLevel < min ((env.now - t) / env.nudgeIntervalMs) 3 →
        (escalateBranch env alive s).session.escalationLevel =
          min ((env.now - t) / env.nudgeIntervalMs) 3) ∧
      s.escalationLevel ≤ (escalateBranch env alive s).session.escalationLevel ∧
      (escalateBranch env alive s).session.stalledSince = some t) := by
  constructor
  · intro h0
    simp [escalateBranch, h0, executeEscalationAction, Nat.sub_self, Nat.zero_div]
  · intro t ht hle
    rw [escalateBranch_subsequent env alive s t ht]
    simp only
    intro hterm
    constructor
    · intro hlt
      simp only [hlt, if_true, ite_true] at hterm ⊢
      simp [hterm]
    constructor
    · by_cases hlt : s.escalationLevel < min ((env.now - t) / env.nudgeIntervalMs) 3
      · simp only [hlt, if_true, ite_true] at hterm ⊢
        simp only [hterm, Bool.false_eq_true, if_false, ite_false]
        exact le_of_lt hlt
      · simp only [hlt, if_false, ite_false] at hterm ⊢
        simp [hterm]
    · rw [hterm]
      simp

/-- C2 witness: a session two nudge intervals into its stall advances from
level 0 to level 2 in one tick, keeping `stalledSince`. -/
theorem escalation_level_monotone_witness :
    (stalledMailSession.escalationLevel <
        min ((demoEnv.now - 880000) / demoEnv.nudgeIntervalMs) 3 →
      (escalateBranch demoEnv true stalledMailSession).session.escalationLevel =
        min ((demoEnv.now - 880000) / demoEnv.nudgeIntervalMs) 3) ∧
    stalledMailSession.escalationLevel ≤
      (escalateBranch demoEnv true stalledMailSession).session.escalationLevel ∧
    (escalateBranch demoEnv true stalledMailSession).session.stalledSince =
      some 880000 :=
  (escalation_level_monotone demoEnv true stalledMailSession (by decide)).2
    880000 rfl (by decide) (by decide)

/-- C10: when more than three nudge intervals elapse between the first
escalate tick and the next one, the first tick executes only the level-0
warn and the second executes only the level-3 terminate — the level-1 nudge
mail and the level-2 triage are never executed, and the session is
terminated without ever having been nudged or triaged. -/
theorem escalation_skips_intermediate_levels (env0 env1 : TickEnv) (alive : Bool)
    (s : AgentSession) (hI : env0.nudgeIntervalMs = env1.nudgeIntervalMs)
    (hIpos : 0 < env1.nudgeIntervalMs) (h0 : s.stalledSince = none)
    (hunread : env0.unreadCount = 0)
    (hgap : env0.now + 3 * env1.nudgeIntervalMs ≤ env1.now) :
    (escalateBranch env0 alive s).events = [DaemonEvent.escalationWarn] ∧
    (escalateBranch env0 alive s).nudges = [] ∧
    (escalateBranch env0 alive s).terminated = false ∧
    (escalateBranch env1 alive (escalateBranch env0 alive s).session).events =
      [DaemonEvent.escalationTerminate] ∧
    (escalateBranch env1 alive (escalateBranch env0 alive s).session).nudges = [] ∧
    (escalateBranch env1 alive (escalateBranch env0 alive s).session).terminated =
      true ∧
    (escalateBranch env1 alive (escalateBranch env0 alive s).session).session.state =
      SessionState.zombie ∧
    (escalateBranch env1 alive (escalateBranch env0 alive s).session).failures =
      [0] := by
  rw [escalateBranch_first env0 alive s h0 hunread]
  have hdiv : 3 ≤ (env1.now - env0.now) / env1.nudgeIntervalMs := by
    rw [Nat.le_div_iff_mul_le hIpos]
    omega
  have hmin : min ((env1.now - env0.now) / env1.nudgeIntervalMs) 3 = 3 :=
    min_eq_right hdiv
  refine ⟨rfl, rfl, rfl, ?_⟩
  simp [escalateBranch, executeEscalationAction, hmin]

/-- C10 witness: the concrete two-tick trace with a 200 s gap and a 60 s
nudge interval. -/
theorem escalation_skips_intermediate_levels_witness :
    (escalateBranch skipEnv0 true freshStallSession).events =
      [DaemonEvent.escalationWarn] ∧
    (escalateBranch skipEnv0 true freshStallSession).nudges = [] ∧
    (escalateBranch skipEnv0 true freshStallSession).terminated = false ∧
    (escalateBranch skipEnv1 true
        (escalateBranch skipEnv0 true freshStallSession).session).events =
      [DaemonEvent.escalationTerminate] ∧
    (escalateBranch skipEnv1 true
        (escalateBranch skipEnv0 true freshStallSession).session).nudges = [] ∧
    (escalateBranch skipEnv1 true
        (escalateBranch skipEnv0 true freshStallSession).session).terminated =
      true ∧
    (escalateBranch skipEnv1 true
        (escalateBranch skipEnv0 true freshStallSession).session).session.state =
      SessionState.zombie ∧
    (escalateBranch skipEnv1 true
        (escalateBranch skipEnv0 true freshStallSession).session).failures =
      [0] :=
  escalation_skips_intermediate_levels skipEnv0 skipEnv1 true freshStallSession
    rfl (by decide) rfl rfl (by decide)

/-- C5: a non-completed session whose non-empty bead is in the closed set is
forced to `completed` with escalation tracking reset; exactly one
`bead_closed_autocomplete` event is emitted; and no liveness probe, health
evaluation effect, or escalation action occurs for it that tick. -/
theorem bead_closed_autocomplete_tick (env : TickEnv) (alive : Bool)
    (s : AgentSession) (h1 : s.state ≠ SessionState.completed)
    (h2 : s.beadId ≠ "") (h3 : s.beadId ∈ env.closedBeadIds) :
    sessionTick env alive s =
      { session :=
          { s with
            state := SessionState.completed
            escalationLevel := 0
            stalledSince := none }
        events := [DaemonEvent.beadClosedAutocomplete s.beadId]
        probed := false
        nudges := []
        failures := []
        killed := false
        terminated := false } := by
  simp [sessionTick, h1, h2, h3]

/-- C5 witness: the concrete bead-closed session is auto-completed without a
probe or any escalation effect. -/
theorem bead_closed_autocomplete_tick_witness :
    sessionTick demoEnv true beadClosedSession =
      { session :=
          { beadClosedSession with
            state := SessionState.completed
            escalationLevel := 0
            stalledSince := none }
        events := [DaemonEvent.beadClosedAutocomplete beadClosedSession.beadId]
        probed := false
        nudges := []
        failures := []
        killed := false
        terminated := false } :=
  bead_closed_autocomplete_tick demoEnv true beadClosedSession (by decide)
    (by decide) (by decide)

/-- Helper: when the modelled health evaluation escalates, the recorded state
was not zombie and the suggested state is `stalled` or unchanged. -/
theorem evaluateHealth_escalate (now : Nat) (s : AgentSession) (alive : Bool)
    (th : Thresholds)
    (h : (evaluateHealth now s alive th).1 = HealthAction.escalate) :
    s.state ≠ SessionState.zombie ∧
      ((evaluateHealth now s alive th).2 = SessionState.stalled ∨
        (evaluateHealth now s alive th).2 = s.state) := by
  simp only [evaluateHealth] at h ⊢
  split_ifs at h ⊢ <;> simp_all

/-- Helper: when the modelled health evaluation reports no action, the
recorded state was not zombie and the suggested state is `working`. -/
theorem evaluateHealth_noAction (now : Nat) (s : AgentSession) (alive : Bool)
    (th : Thresholds)
    (h : (evaluateHealth now s alive th).1 = HealthAction.noAction) :
    (evaluateHealth now s alive th).2 = SessionState.working ∧
      s.state ≠ SessionState.zombie := by
  simp only [evaluateHealth] at h ⊢
  split_ifs at h ⊢ <;> simp_all

/-- Helper: the invariant holds for a conditional between two sessions that
both satisfy it. -/
theorem sessionInvariant_ite (c : Prop) [Decidable c] (a b : AgentSession)
    (ha : sessionInvariant a) (hb : sessionInvariant b) :
    sessionInvariant (if c then a else b) := by
  by_cases h : c
  · simpa [h] using ha
  · simpa [h] using hb

/-- Helper: the `escalate` branch preserves the terminal-reset invariant for
a session whose state is non-terminal. -/
theorem escalateBranch_invariant (env : TickEnv) (alive : Bool)
    (s : AgentSession) (hc : s.state ≠ SessionState.completed)
    (hz : s.state ≠ SessionState.zombie) :
    sessionInvariant (escalateBranch env alive s).session := by
  simp only [escalateBranch]
  refine sessionInvariant_ite _ _ _ (fun _ => ⟨rfl, rfl⟩) ?_
  intro habs
  rcases habs with habs | habs
  · exact absurd habs hc
  · exact absurd habs hz

/-- C4: every watchdog tick preserves the terminal-reset invariant — after
the tick, a session in `completed` or `zombie` has `escalationLevel = 0` and
`stalledSince = null`; every transition into a terminal state (health
terminate, ladder termination, bead-closed autocomplete) resets both. -/
theorem terminal_reset_invariant (env : TickEnv) (alive : Bool)
    (s : AgentSession) (h : sessionInvariant s) :
    sessionInvariant (sessionTick env alive s).session := by
  by_cases hcs : s.state = SessionState.completed
  · simpa [sessionTick, hcs] using h
  by_cases hb : s.beadId ≠ "" ∧ s.beadId ∈ env.closedBeadIds
  · intro _
    simp [sessionTick, hcs, hb]
  cases hact : (evaluateHealth env.now s alive env.thresholds).1 with
  | terminate =>
    intro _
    simp [sessionTick, hcs, hb, hact]
  | investigate =>
    have hres : (sessionTick env alive s).session = s := by
      simp [sessionTick, hcs, hb, hact, transitionState]
    rw [hres]
    exact h
  | escalate =>
    have hesc := evaluateHealth_escalate env.now s alive env.thresholds hact
    have hres : sessionTick env alive s =
        escalateBranch env alive
          { s with
            state := transitionState s.state HealthAction.escalate
              (evaluateHealth env.now s alive env.thresholds).2 } := by
      simp [sessionTick, hcs, hb, hact]
    rw [hres]
    apply escalateBranch_invariant
    · show transitionState s.state HealthAction.escalate
        (evaluateHealth env.now s alive env.thresholds).2 ≠ SessionState.completed
      rcases hesc with ⟨hz, h2 | h2⟩ <;>
        simp [transitionState, hcs, hz, h2]
    · show transitionState s.state HealthAction.escalate
        (evaluateHealth env.now s alive env.thresholds).2 ≠ SessionState.zombie
      rcases hesc with ⟨hz, h2 | h2⟩ <;>
        simp [transitionState, hcs, hz, h2]
  | noAction =>
    have hna := evaluateHealth_noAction env.now s alive env.thresholds hact
    by_cases hss : s.stalledSince ≠ none
    · intro _
      simp [sessionTick, hcs, hb, hact, hss]
    · have hres : (sessionTick env alive s).session =
          { s with state := SessionState.working } := by
        simp [sessionTick, hcs, hb, hact, hss, transitionState, hna.1, hna.2]
      rw [hres]
      intro habs
      rcases habs with habs | habs <;> simp at habs

/-- C4 witness: the invariant holds for a concrete zombie session before and
after a tick. -/
theorem terminal_reset_invariant_witness :
    sessionInvariant invariantDemoSession ∧
    sessionInvariant (sessionTick demoEnv true invariantDemoSession).session :=
  ⟨fun _ => ⟨rfl, rfl⟩,
    terminal_reset_invariant demoEnv true invariantDemoSession
      (fun _ => ⟨rfl, rfl⟩)⟩

/-- C3: for a fixed run whose non-empty worker set is all completed, the
first tick force-notifies the coordinator, records `run_complete` and writes
the run-complete marker; any tick that reads a marker equal to the run id
does nothing; and across any number of ticks the `run_complete` event is
recorded exactly once (assuming the marker write succeeded). -/
theorem run_completion_once (sessions : List AgentSession) (runId : String)
    (st0 : CompletionState) (hw : workersOf sessions runId ≠ [])
    (hall : ∀ s ∈ workersOf sessions runId, s.state = SessionState.completed)
    (hm : st0.marker ≠ some runId) (n : Nat) (hn : 1 ≤ n) :
    (checkRunCompletion sessions runId st0).marker = some runId ∧
    (checkRunCompletion sessions runId st0).notices = st0.notices ++
      [("coordinator", buildCompletionMessage (workersOf sessions runId) runId)] ∧
    (checkRunCompletion sessions runId st0).events = st0.events ++ [runId] ∧
    (∀ st : CompletionState, st.marker = some runId →
      checkRunCompletion sessions runId st = st) ∧
    ((checkRunCompletion sessions runId)^[n] st0).events = st0.events ++ [runId] := by
  have hwb : (workersOf sessions runId).isEmpty = false := by
    cases hwl : workersOf sessions runId with
    | nil => exact absurd hwl hw
    | cons a l => rfl
  have hallb :
      ((workersOf sessions runId).all fun s => s.state == SessionState.completed) =
        true := by
    rw [List.all_eq_true]
    intro s hs
    simpa using hall s hs
  have hfirst : checkRunCompletion sessions runId st0 =
      { marker := some runId
        notices := st0.notices ++
          [("coordinator", buildCompletionMessage (workersOf sessions runId) runId)]
        events := st0.events ++ [runId] } := by
    simp [checkRunCompletion, hwb, hallb, hm]
  have hskip : ∀ st : CompletionState, st.marker = some runId →
      checkRunCompletion sessions runId st = st := by
    intro st hst
    simp [checkRunCompletion, hwb, hallb, hst]
  have hiter : ∀ (m : Nat) (st : CompletionState), st.marker = some runId →
      (checkRunCompletion sessions runId)^[m] st = st := by
    intro m
    induction m with
    | zero => intro st _; rfl
    | succ k ih =>
      intro st hst
      rw [Function.iterate_succ_apply, hskip st hst]
      exact ih st hst
  obtain ⟨k, rfl⟩ : ∃ k, n = k + 1 := ⟨n - 1, by omega⟩
  refine ⟨by rw [hfirst], by rw [hfirst], by rw [hfirst], hskip, ?_⟩
  rw [Function.iterate_succ_apply, hfirst, hiter k _ rfl]

/-- C3 witness: one completed builder in run `run-1`, two ticks, one event. -/
theorem run_completion_once_witness :
    ((checkRunCompletion [runWorkerSession] "run-1")^[2] runInitialState).events =
      ["run-1"] ∧
    (checkRunCompletion [runWorkerSession] "run-1" runInitialState).marker =
      some "run-1" := by
  have h := run_completion_once [runWorkerSession] "run-1" runInitialState
    (by decide) (by decide) (by decide) 2 (by decide)
  exact ⟨h.2.2.2.2, h.1⟩

/-- Helper: a successful probe makes the fallible per-session step agree with
the pure one. -/
theorem sessionTickE_ok (env : TickEnv) (b : Bool) (s : AgentSession) :
    sessionTickE env (Except.ok b) s = Except.ok (sessionTick env b s) := by
  unfold sessionTickE
  split
  · rename_i hskip
    congr 1
    rcases hskip with h1 | h2
    · simp [sessionTick, h1]
    · rcases eq_or_ne s.state SessionState.completed with hcs | hcs
      · simp [sessionTick, hcs]
      · simp [sessionTick, hcs, h2]
  · rfl

/-- Helper: with an everywhere-successful probe, the tick loop processes
every session and reports no error. -/
theorem tickLoop_total (env : TickEnv) (aliveOf : String → Bool)
    (store : List AgentSession) :
    tickLoop env (fun t => Except.ok (aliveOf t)) store =
      (store.map fun s => (sessionTick env (aliveOf s.tmuxSession) s).session,
        none) := by
  induction store with
  | nil => rfl
  | cons s rest ih => simp [tickLoop, sessionTickE_ok, ih]

/-- Helper: when one session's evaluation throws after a prefix of successful
evaluations, the loop reports the error and every session from the failing
one on keeps its prior stored row. -/
theorem tickLoop_error (env : TickEnv) (probe : String → Except String Bool)
    (pre : List AgentSession) (s : AgentSession) (rest : List AgentSession)
    (e : String)
    (hpre : ∀ x ∈ pre, ∃ r, sessionTickE env (probe x.tmuxSession) x = Except.ok r)
    (hs : sessionTickE env (probe s.tmuxSession) s = Except.error e) :
    (tickLoop env probe (pre ++ s :: rest)).2 = some e ∧
    (tickLoop env probe (pre ++ s :: rest)).1.drop pre.length = s :: rest := by
  induction pre with
  | nil => simp [tickLoop, hs]
  | cons p ps ih =>
    obtain ⟨r, hr⟩ := hpre p (List.mem_cons_self p ps)
    have ih' := ih fun x hx => hpre x (List.mem_cons_of_mem p hx)
    simpa [tickLoop, hr, List.cons_append] using ih'

/-- C1 (amended): an uncaught error in one session's evaluation (here the
terminal-liveness probe) aborts the remainder of that tick — the failing
session and every later one keep their prior stored rows — but the error is
confined to the tick: the daemon-level catch swallows it, the next scheduled
tick still fires, and with a healthy probe it processes every session. -/
theorem tick_error_containment (env : TickEnv)
    (probe : String → Except String Bool) (pre : List AgentSession)
    (s : AgentSession) (rest : List AgentSession) (e : String)
    (hpre : ∀ x ∈ pre, ∃ r, sessionTickE env (probe x.tmuxSession) x = Except.ok r)
    (hs : sessionTickE env (probe s.tmuxSession) s = Except.error e) :
    (tickLoop env probe (pre ++ s :: rest)).2 = some e ∧
    (tickLoop env probe (pre ++ s :: rest)).1.drop pre.length = s :: rest ∧
    ∀ (env2 : TickEnv) (aliveOf : String → Bool) (store : List AgentSession),
      daemonStep env2 (fun t => Except.ok (aliveOf t)) store =
        store.map fun x => (sessionTick env2 (aliveOf x.tmuxSession) x).session := by
  obtain ⟨h1, h2⟩ := tickLoop_error env probe pre s rest e hpre hs
  refine ⟨h1, h2, fun env2 aliveOf store => ?_⟩
  simp [daemonStep, tickLoop_total]

/-- C1 counterexample: two sessions; the first session's liveness probe
rejects.  The second session — which a clean tick would auto-complete from
its closed bead — is left unprocessed in that tick, refuting the claim that
the remaining sessions of the same tick are still processed. -/
theorem tick_error_skips_rest_counterexample :
    (tickLoop demoEnv failingProbe [probeFailureSessionA, probeFailureSessionB]).1 =
      [probeFailureSessionA, probeFailureSessionB] ∧
    (tickLoop demoEnv failingProbe [probeFailureSessionA, probeFailureSessionB]).2 =
      some "tmux probe failed" ∧
    (sessionTick demoEnv true probeFailureSessionB).session.state =
      SessionState.completed ∧
    probeFailureSessionB.state ≠ SessionState.completed := by decide

/-- C1 witness: the concrete failing tick reports the error and leaves both
sessions' rows untouched. -/
theorem tick_error_containment_witness :
    (tickLoop demoEnv failingProbe
        (probeFailureSessionA :: [probeFailureSessionB])).2 =
      some "tmux probe failed" ∧
    (tickLoop demoEnv failingProbe
        (probeFailureSessionA :: [probeFailureSessionB])).1.drop 0 =
      probeFailureSessionA :: [probeFailureSessionB] := by
  have h := tick_error_containment demoEnv failingProbe [] probeFailureSessionA
    [probeFailureSessionB] "tmux probe failed" (by simp) (by rfl)
  exact ⟨h.1, h.2.1⟩

end Overstory
